import Mathlib

/-!
Verification of the capture_walking_controller footstep-plan and controller
headers (src/include/capture_walking/FootstepPlan.h and Controller.h).

Numbers of type double are embedded as rationals.  Definitions marked
"Modelled from the spec" stand for code of the repository whose
implementation file is not available (FootstepPlan.cpp, Controller.cpp,
HorizontalMPC.h, utils/clamp.h); they follow the specification text.
All other definitions are translated from the inline code of the two
headers.
-/

namespace CaptureWalking

/-- Rational triple standing for Eigen::Vector3d. -/
structure Vec3 where
  x : ℚ
  y : ℚ
  z : ℚ
deriving DecidableEq

/-- Per-contact swing overrides (Contact::swingConfig): one optional entry
for each key the getters of FootstepPlan.h consult.  A key is present in the
dictionary exactly when the corresponding field is some value. -/
structure SwingConfig where
  height : Option ℚ
  takeoffPitchKey : Option ℚ
  landingPitchKey : Option ℚ
  takeoffOffsetKey : Option Vec3
  takeoffRatioKey : Option ℚ
  landingRatioKey : Option ℚ
deriving DecidableEq

/-- The empty swing-override dictionary. -/
def SwingConfig.empty : SwingConfig :=
  ⟨none, none, none, none, none, none⟩

/-- One foothold of a plan (Contact.h is not under src/; shape per spec
section 3: ordinal id, pose, named support surface, swing overrides). -/
structure Contact where
  id : ℕ
  pose : Vec3
  surface : String
  swingConfig : SwingConfig
deriving DecidableEq

/-- Default-constructed contact. -/
def defaultContact : Contact :=
  ⟨0, ⟨0, 0, 0⟩, "", SwingConfig.empty⟩

/-- Modelled from the spec: utils/clamp.h is not under src/.  Clamp a value
to a documented range (spec section 3, clamp-validation on write). -/
def clamp (value lower upper : ℚ) : ℚ :=
  if value > upper then upper
  else if value < lower then lower
  else value

/-- Modelled from the spec: HorizontalMPC::SAMPLING_PERIOD (HorizontalMPC.h
is not under src/), the fixed sampling period of the preview grid used by
the duration setters of FootstepPlan.h; the spec fixes no numeric value, so
the usual 0.1 s period is taken. -/
def SAMPLING_PERIOD : ℚ := 1 / 10

/-- Translation of std::round on rationals: round half away from zero. -/
def stdRound (x : ℚ) : ℤ :=
  if 0 ≤ x then ⌊x + 1 / 2⌋ else ⌈x - 1 / 2⌉

/-- Footstep plan state.  Fields ending in an underscore are those of
FootstepPlan.h lines 361-382, except that the four role pointers are kept
as indices into contacts_ (the arena+index pattern the spec, section 9,
prescribes for them) and restorePoint_ is modelled from the spec: it holds
the configuration saved by the last forward transition, enabling the
one-step rewind of restorePreviousFootstep and the detection of a second
consecutive rewind (spec sections 4.1 and 7c). -/
structure FootstepPlan where
  name : String
  contacts_ : List Contact
  nextContact_ : ℕ
  prevContact_ : ℕ
  supportContact_ : ℕ
  targetContact_ : ℕ
  restorePoint_ : Option (ℕ × ℕ × ℕ × ℕ)
  nextFootstep_ : ℕ
  takeoffOffset_ : Vec3
  comHeight_ : ℚ
  doubleSupportDuration_ : ℚ
  finalDSPDuration_ : ℚ
  initDSPDuration_ : ℚ
  landingPitch_ : ℚ
  landingRatio_ : ℚ
  singleSupportDuration_ : ℚ
  swingHeight_ : ℚ
  takeoffPitch_ : ℚ
  takeoffRatio_ : ℚ
deriving DecidableEq

/-- Default-constructed plan, with the member initializers of
FootstepPlan.h lines 362-381. -/
def defaultPlan : FootstepPlan where
  name := ""
  contacts_ := []
  nextContact_ := 0
  prevContact_ := 0
  supportContact_ := 0
  targetContact_ := 0
  restorePoint_ := none
  nextFootstep_ := 0
  takeoffOffset_ := ⟨0, 0, 0⟩
  comHeight_ := 78 / 100
  doubleSupportDuration_ := 2 / 10
  finalDSPDuration_ := 6 / 10
  initDSPDuration_ := 6 / 10
  landingPitch_ := 0
  landingRatio_ := 5 / 100
  singleSupportDuration_ := 8 / 10
  swingHeight_ := 4 / 100
  takeoffPitch_ := 0
  takeoffRatio_ := 5 / 100

/-- Index of the last contact of the plan. -/
def FootstepPlan.lastIndex (p : FootstepPlan) : ℕ :=
  p.contacts_.length - 1

/-- The contact a role pointer designates. -/
def FootstepPlan.contactAt (p : FootstepPlan) (i : ℕ) : Contact :=
  p.contacts_.getD i defaultContact

/-- Previous contact in plan (FootstepPlan.h lines 234-237). -/
def FootstepPlan.prevContact (p : FootstepPlan) : Contact :=
  p.contactAt p.prevContact_

/-- Current support contact (FootstepPlan.h lines 262-265). -/
def FootstepPlan.supportContact (p : FootstepPlan) : Contact :=
  p.contactAt p.supportContact_

/-- Current target contact (FootstepPlan.h lines 334-337). -/
def FootstepPlan.targetContact (p : FootstepPlan) : Contact :=
  p.contactAt p.targetContact_

/-- Next contact in plan (FootstepPlan.h lines 226-229). -/
def FootstepPlan.nextContact (p : FootstepPlan) : Contact :=
  p.contactAt p.nextContact_

/-- Getter comHeight (FootstepPlan.h lines 102-105). -/
def FootstepPlan.comHeight (p : FootstepPlan) : ℚ := p.comHeight_

/-- Getter doubleSupportDuration (FootstepPlan.h lines 128-131). -/
def FootstepPlan.doubleSupportDuration (p : FootstepPlan) : ℚ :=
  p.doubleSupportDuration_

/-- Getter finalDSPDuration (FootstepPlan.h lines 148-151). -/
def FootstepPlan.finalDSPDuration (p : FootstepPlan) : ℚ := p.finalDSPDuration_

/-- Getter initDSPDuration (FootstepPlan.h lines 165-168). -/
def FootstepPlan.initDSPDuration (p : FootstepPlan) : ℚ := p.initDSPDuration_

/-- Getter singleSupportDuration (FootstepPlan.h lines 242-245). -/
def FootstepPlan.singleSupportDuration (p : FootstepPlan) : ℚ :=
  p.singleSupportDuration_

/-- Getter landingPitch (FootstepPlan.h lines 182-189): the swingConfig of
prevContact_ shadows the plan default. -/
def FootstepPlan.landingPitch (p : FootstepPlan) : ℚ :=
  match p.prevContact.swingConfig.landingPitchKey with
  | some v => v
  | none => p.landingPitch_

/-- Getter landingRatio (FootstepPlan.h lines 204-211): the swingConfig of
supportContact_ shadows the plan default. -/
def FootstepPlan.landingRatio (p : FootstepPlan) : ℚ :=
  match p.supportContact.swingConfig.landingRatioKey with
  | some v => v
  | none => p.landingRatio_

/-- Getter swingHeight (FootstepPlan.h lines 270-277): the swingConfig of
prevContact_ shadows the plan default. -/
def FootstepPlan.swingHeight (p : FootstepPlan) : ℚ :=
  match p.prevContact.swingConfig.height with
  | some v => v
  | none => p.swingHeight_

/-- Getter takeoffOffset (FootstepPlan.h lines 292-299): the swingConfig of
prevContact_ shadows the plan default. -/
def FootstepPlan.takeoffOffset (p : FootstepPlan) : Vec3 :=
  match p.prevContact.swingConfig.takeoffOffsetKey with
  | some v => v
  | none => p.takeoffOffset_

/-- Getter takeoffPitch (FootstepPlan.h lines 312-319): the swingConfig of
prevContact_ shadows the plan default. -/
def FootstepPlan.takeoffPitch (p : FootstepPlan) : ℚ :=
  match p.prevContact.swingConfig.takeoffPitchKey with
  | some v => v
  | none => p.takeoffPitch_

/-- Getter takeoffRatio (FootstepPlan.h lines 342-349): the swingConfig of
supportContact_ shadows the plan default. -/
def FootstepPlan.takeoffRatio (p : FootstepPlan) : ℚ :=
  match p.supportContact.swingConfig.takeoffRatioKey with
  | some v => v
  | none => p.takeoffRatio_

/-- Setter comHeight (FootstepPlan.h lines 110-115): clamp to [0.7, 0.85]. -/
def FootstepPlan.comHeightSet (p : FootstepPlan) (height : ℚ) : FootstepPlan :=
  { p with comHeight_ := clamp height (7 / 10) (17 / 20) }

/-- Setter doubleSupportDuration (FootstepPlan.h lines 136-143): round to
the sampling grid, then clamp to [0, 1]. -/
def FootstepPlan.doubleSupportDurationSet (p : FootstepPlan) (duration : ℚ) :
    FootstepPlan :=
  { p with doubleSupportDuration_ :=
      clamp ((stdRound (duration / SAMPLING_PERIOD) : ℚ) * SAMPLING_PERIOD) 0 1 }

/-- Setter finalDSPDuration (FootstepPlan.h lines 157-160): clamp to
[0, 1.6], with no rounding. -/
def FootstepPlan.finalDSPDurationSet (p : FootstepPlan) (duration : ℚ) :
    FootstepPlan :=
  { p with finalDSPDuration_ := clamp duration 0 (8 / 5) }

/-- Setter initDSPDuration (FootstepPlan.h lines 174-177): clamp to
[0, 1.6], with no rounding. -/
def FootstepPlan.initDSPDurationSet (p : FootstepPlan) (duration : ℚ) :
    FootstepPlan :=
  { p with initDSPDuration_ := clamp duration 0 (8 / 5) }

/-- Setter landingPitch (FootstepPlan.h lines 194-199): clamp to [-1, 1]. -/
def FootstepPlan.landingPitchSet (p : FootstepPlan) (pitch : ℚ) : FootstepPlan :=
  { p with landingPitch_ := clamp pitch (-1) 1 }

/-- Setter landingRatio (FootstepPlan.h lines 218-221): clamp to [0, 0.5]. -/
def FootstepPlan.landingRatioSet (p : FootstepPlan) (ratio : ℚ) : FootstepPlan :=
  { p with landingRatio_ := clamp ratio 0 (1 / 2) }

/-- Setter singleSupportDuration (FootstepPlan.h lines 250-257): round to
the sampling grid, then clamp to [0, 2]. -/
def FootstepPlan.singleSupportDurationSet (p : FootstepPlan) (duration : ℚ) :
    FootstepPlan :=
  { p with singleSupportDuration_ :=
      clamp ((stdRound (duration / SAMPLING_PERIOD) : ℚ) * SAMPLING_PERIOD) 0 2 }

/-- Setter swingHeight (FootstepPlan.h lines 282-287): clamp to [0, 0.25]. -/
def FootstepPlan.swingHeightSet (p : FootstepPlan) (height : ℚ) : FootstepPlan :=
  { p with swingHeight_ := clamp height 0 (1 / 4) }

/-- Setter takeoffOffset (FootstepPlan.h lines 304-307): stores the offset
unmodified. -/
def FootstepPlan.takeoffOffsetSet (p : FootstepPlan) (offset : Vec3) :
    FootstepPlan :=
  { p with takeoffOffset_ := offset }

/-- Setter takeoffPitch (FootstepPlan.h lines 324-329): clamp to [-1, 1]. -/
def FootstepPlan.takeoffPitchSet (p : FootstepPlan) (pitch : ℚ) : FootstepPlan :=
  { p with takeoffPitch_ := clamp pitch (-1) 1 }

/-- Setter takeoffRatio (FootstepPlan.h lines 356-359): clamp to [0, 0.5]. -/
def FootstepPlan.takeoffRatioSet (p : FootstepPlan) (ratio : ℚ) : FootstepPlan :=
  { p with takeoffRatio_ := clamp ratio 0 (1 / 2) }

/-- The four role-pointer indices of a plan, in the order prev, support,
target, next. -/
def FootstepPlan.roles (p : FootstepPlan) : ℕ × ℕ × ℕ × ℕ :=
  (p.prevContact_, p.supportContact_, p.targetContact_, p.nextContact_)

/-- Modelled from the spec: FootstepPlan::reset (FootstepPlan.cpp is not
under src/).  Spec section 4.1: supportContact and prevContact become the
contact at startIndex, targetContact the one after, nextContact the one
after that, clamped at the plan end by holding the last contact repeated;
any pending one-step rewind memory is discarded. -/
def FootstepPlan.reset (p : FootstepPlan) (startIndex : ℕ) : FootstepPlan :=
  { p with
    prevContact_ := startIndex
    supportContact_ := startIndex
    targetContact_ := min (startIndex + 1) p.lastIndex
    nextContact_ := min (startIndex + 2) p.lastIndex
    nextFootstep_ := startIndex + 1
    restorePoint_ := none }

/-- Modelled from the spec: FootstepPlan::goToNextFootstep
(FootstepPlan.cpp is not under src/).  Spec sections 4.1 and 8: advances
all four role pointers by one position, the last contact repeating at the
end of the sequence, and records the pre-transition configuration so that
restorePreviousFootstep can rewind exactly one step. -/
def FootstepPlan.goToNextFootstep (p : FootstepPlan) : FootstepPlan :=
  { p with
    prevContact_ := p.supportContact_
    supportContact_ := p.targetContact_
    targetContact_ := p.nextContact_
    nextContact_ := min (p.nextContact_ + 1) p.lastIndex
    nextFootstep_ := p.nextFootstep_ + 1
    restorePoint_ := some p.roles }

/-- Modelled from the spec: FootstepPlan::restorePreviousFootstep
(FootstepPlan.cpp is not under src/).  Spec sections 4.1 and 7c: rewinds
exactly one footstep, restoring the configuration saved by the last
forward transition; a second consecutive call is a contract violation and
is detected, yielding none instead of a silently wrong state. -/
def FootstepPlan.restorePreviousFootstep (p : FootstepPlan) :
    Option FootstepPlan :=
  match p.restorePoint_ with
  | some (pr, su, ta, ne) =>
      some { p with
             prevContact_ := pr
             supportContact_ := su
             targetContact_ := ta
             nextContact_ := ne
             nextFootstep_ := p.nextFootstep_ - 1
             restorePoint_ := none }
  | none => none

/-- Iterated forward transition. -/
def FootstepPlan.stepN (p : FootstepPlan) : ℕ → FootstepPlan
  | 0 => p
  | n + 1 => (p.stepN n).goToNextFootstep

/-- Well-formed plan: a nonempty contact sequence whose ids are the
positions in the sequence (spec section 3: id is an integer, monotonic in
plan order; ids are completed from positions by the preprocessing pass). -/
def FootstepPlan.wf (p : FootstepPlan) : Prop :=
  p.contacts_ ≠ [] ∧
  ∀ i, i < p.contacts_.length → (p.contacts_.getD i defaultContact).id = i

instance (p : FootstepPlan) : Decidable p.wf := by
  unfold FootstepPlan.wf
  infer_instance

/-- The states a plan can be driven to: a reset, followed by any sequence
of forward and (successful) backward transitions. -/
inductive Reachable (p : FootstepPlan) : FootstepPlan → Prop where
  | reset : ∀ i, i < p.contacts_.length → Reachable p (p.reset i)
  | next : ∀ {q}, Reachable p q → Reachable p q.goToNextFootstep
  | restore : ∀ {q r}, Reachable p q → q.restorePreviousFootstep = some r →
      Reachable p r

/-- Modelled from the spec: the configuration-dictionary shape of a plan
entry (spec section 6): the plan name, the ordered contact list and the
timing parameter set of section 3. -/
structure PlanConfig where
  name : String
  contacts : List Contact
  takeoffOffset : Vec3
  comHeight : ℚ
  doubleSupportDuration : ℚ
  finalDSPDuration : ℚ
  initDSPDuration : ℚ
  landingPitch : ℚ
  landingRatio : ℚ
  singleSupportDuration : ℚ
  swingHeight : ℚ
  takeoffPitch : ℚ
  takeoffRatio : ℚ
deriving DecidableEq

/-- Modelled from the spec: FootstepPlan::save (FootstepPlan.cpp is not
under src/).  Serializes the contact sequence and the timing parameters
(spec sections 4.1 and 6). -/
def FootstepPlan.save (p : FootstepPlan) : PlanConfig where
  name := p.name
  contacts := p.contacts_
  takeoffOffset := p.takeoffOffset_
  comHeight := p.comHeight_
  doubleSupportDuration := p.doubleSupportDuration_
  finalDSPDuration := p.finalDSPDuration_
  initDSPDuration := p.initDSPDuration_
  landingPitch := p.landingPitch_
  landingRatio := p.landingRatio_
  singleSupportDuration := p.singleSupportDuration_
  swingHeight := p.swingHeight_
  takeoffPitch := p.takeoffPitch_
  takeoffRatio := p.takeoffRatio_

/-- Modelled from the spec: FootstepPlan::load (FootstepPlan.cpp is not
under src/).  Deserializes the contact sequence and the timing parameters
and leaves the role pointers reset to the plan start (spec section 6). -/
def FootstepPlan.load (config : PlanConfig) : FootstepPlan :=
  FootstepPlan.reset
    { defaultPlan with
      name := config.name
      contacts_ := config.contacts
      takeoffOffset_ := config.takeoffOffset
      comHeight_ := config.comHeight
      doubleSupportDuration_ := config.doubleSupportDuration
      finalDSPDuration_ := config.finalDSPDuration
      initDSPDuration_ := config.initDSPDuration
      landingPitch_ := config.landingPitch
      landingRatio_ := config.landingRatio
      singleSupportDuration_ := config.singleSupportDuration
      swingHeight_ := config.swingHeight
      takeoffPitch_ := config.takeoffPitch
      takeoffRatio_ := config.takeoffRatio }
    0

/-- Linear-inverted-pendulum state (Pendulum.h is not under src/; shape per
spec section 3). -/
structure Pendulum where
  com : Vec3
  comd : Vec3
  comdd : Vec3
  zmp : Vec3
deriving DecidableEq

/-- Preview produced by a walking-pattern generator (Preview.h is not under
src/; shape per spec section 3: a finite sequence of pendulum states over
the horizon). -/
structure Preview where
  samples : List Pendulum
deriving DecidableEq

/-- Controller state: the fields of Controller.h that the verified claims
touch (plan, pendulum_, preview, leftFootRatio_, leftFootRatioJumped_,
doubleSupportDurationOverride_ and the four generator counters, lines
307-342). -/
structure ControllerState where
  plan : FootstepPlan
  pendulum_ : Pendulum
  preview : Preview
  leftFootRatio_ : ℚ
  leftFootRatioJumped_ : Bool
  doubleSupportDurationOverride_ : ℚ
  nbCPSFailures_ : ℕ
  nbCPSUpdates_ : ℕ
  nbHMPCFailures_ : ℕ
  nbHMPCUpdates_ : ℕ
deriving DecidableEq

/-- Ratio formula of Controller::measuredLeftFootRatio (Controller.h lines
194-201), as a function of the two measured vertical foot forces.  In C++
the division yields NaN when both clamped forces are zero; here the caller
below detects the zero denominator before the quotient is used. -/
def measuredLeftFootRatio (leftFootPressure rightFootPressure : ℚ) : ℚ :=
  max 0 leftFootPressure / (max 0 leftFootPressure + max 0 rightFootPressure)

/-- Modelled from the spec: the update of leftFootRatio_ from the measured
forces (Controller.cpp is not under src/).  Spec sections 4.3 and 7d: the
division-by-zero of the degenerate both-zero case is detected, the previous
ratio is held and the jump indicator leftFootRatioJumped_ is set; otherwise
the measured ratio is stored. -/
def ControllerState.updateLeftFootRatio (s : ControllerState)
    (leftForce rightForce : ℚ) : ControllerState :=
  if max 0 leftForce + max 0 rightForce = 0 then
    { s with leftFootRatioJumped_ := true }
  else
    { s with leftFootRatio_ := measuredLeftFootRatio leftForce rightForce
             leftFootRatioJumped_ := false }

/-- Modelled from the spec: Controller::updatePreviewCPS (Controller.cpp is
not under src/).  Spec section 4.2: the update counter of the capture
generator is incremented on every invocation; on success the pendulum and
the shared preview are replaced wholesale; on failure the failure counter
is incremented and the pendulum and preview of the previous successful
cycle are left untouched.  The solve outcome is passed as an argument. -/
def ControllerState.updatePreviewCPS (s : ControllerState)
    (result : Option (Pendulum × Preview)) : ControllerState × Bool :=
  match result with
  | some (pd, pv) =>
      ({ s with nbCPSUpdates_ := s.nbCPSUpdates_ + 1
                pendulum_ := pd
                preview := pv }, true)
  | none =>
      ({ s with nbCPSUpdates_ := s.nbCPSUpdates_ + 1
                nbCPSFailures_ := s.nbCPSFailures_ + 1 }, false)

/-- Modelled from the spec: Controller::updatePreviewHMPC (Controller.cpp
is not under src/); same contract as updatePreviewCPS with the horizontal
MPC counters. -/
def ControllerState.updatePreviewHMPC (s : ControllerState)
    (result : Option (Pendulum × Preview)) : ControllerState × Bool :=
  match result with
  | some (pd, pv) =>
      ({ s with nbHMPCUpdates_ := s.nbHMPCUpdates_ + 1
                pendulum_ := pd
                preview := pv }, true)
  | none =>
      ({ s with nbHMPCUpdates_ := s.nbHMPCUpdates_ + 1
                nbHMPCFailures_ := s.nbHMPCFailures_ + 1 }, false)

/-- Controller::doubleSupportDuration (Controller.h lines 206-219): a
positive pending override is consumed and cleared by the getter itself;
otherwise the plan default is returned.  Returns the duration and the
post-call controller state. -/
def ControllerState.doubleSupportDuration (s : ControllerState) :
    ℚ × ControllerState :=
  if s.doubleSupportDurationOverride_ > 0 then
    (s.doubleSupportDurationOverride_,
     { s with doubleSupportDurationOverride_ := -1 })
  else
    (s.plan.doubleSupportDuration, s)

/-- Controller::nextDoubleSupportDuration (Controller.h lines 234-237):
stores the override unconditionally. -/
def ControllerState.nextDoubleSupportDuration (s : ControllerState)
    (duration : ℚ) : ControllerState :=
  { s with doubleSupportDurationOverride_ := duration }

/-- One forward transition on a role-pointer quadruple of a plan whose last
contact has the given index. -/
def stepQuad (last : ℕ) : ℕ × ℕ × ℕ × ℕ → ℕ × ℕ × ℕ × ℕ
  | (_, su, ta, ne) => (su, ta, ne, min (ne + 1) last)

/-- Shape invariant of a role-pointer quadruple: prev at or before support,
support in range, target one position after support and next one position
after target, both clamped at the plan end. -/
def quadInv (last : ℕ) : ℕ × ℕ × ℕ × ℕ → Prop
  | (pr, su, ta, ne) =>
    pr ≤ su ∧ su ≤ last ∧ ta = min (su + 1) last ∧ ne = min (ta + 1) last

/-- Plan invariant: the current role pointers and any saved rewind
configuration satisfy the quadruple invariant. -/
def FootstepPlan.Inv (p : FootstepPlan) : Prop :=
  quadInv p.lastIndex p.roles ∧ ∀ q ∈ p.restorePoint_, quadInv p.lastIndex q

/-- A contact with a given id and no overrides. -/
def sampleContact (i : ℕ) : Contact :=
  { defaultContact with id := i }

/-- The four-contact plan of the scenario of spec section 8. -/
def plan4 : FootstepPlan :=
  { defaultPlan with
    contacts_ := [sampleContact 0, sampleContact 1, sampleContact 2,
                  sampleContact 3] }

/-- The state of plan4 after reset and three forward transitions: the
support pointer has reached the final contact. -/
def planEndState : FootstepPlan :=
  (plan4.reset 0).stepN 3

/-- A contact carrying overrides for every swing key. -/
def overrideContact : Contact :=
  { id := 1
    pose := ⟨0, 0, 0⟩
    surface := "left_sole"
    swingConfig :=
      { height := some (9 / 100)
        takeoffPitchKey := some (1 / 5)
        landingPitchKey := some (-1 / 5)
        takeoffOffsetKey := some ⟨1 / 100, 0, 0⟩
        takeoffRatioKey := some (1 / 10)
        landingRatioKey := some (2 / 10) } }

/-- A two-contact plan whose role pointers sit on a contact with overrides
(prevContact_ = supportContact_ = 0 designates overrideContact). -/
def overridePlan : FootstepPlan :=
  { defaultPlan with contacts_ := [overrideContact, sampleContact 2] }

/-- A concrete controller state for witnesses. -/
def sampleController : ControllerState where
  plan := defaultPlan
  pendulum_ := ⟨⟨0, 0, 0⟩, ⟨0, 0, 0⟩, ⟨0, 0, 0⟩, ⟨0, 0, 0⟩⟩
  preview := ⟨[]⟩
  leftFootRatio_ := 1 / 2
  leftFootRatioJumped_ := false
  doubleSupportDurationOverride_ := -1
  nbCPSFailures_ := 0
  nbCPSUpdates_ := 0
  nbHMPCFailures_ := 0
  nbHMPCUpdates_ := 0

theorem clamp_eq_of_lt_lower {v lo hi : ℚ} (h : v < lo) (hlh : lo ≤ hi) :
    clamp v lo hi = lo := by
  unfold clamp
  split_ifs <;> linarith

theorem clamp_eq_of_ge_upper {v lo hi : ℚ} (h : hi ≤ v) (hlh : lo ≤ hi) :
    clamp v lo hi = hi := by
  unfold clamp
  split_ifs <;> linarith

theorem clamp_eq_self {v lo hi : ℚ} (h1 : lo ≤ v) (h2 : v ≤ hi) :
    clamp v lo hi = v := by
  unfold clamp
  split_ifs <;> linarith

theorem clamp_mem_lower {v lo hi : ℚ} (hlh : lo ≤ hi) : lo ≤ clamp v lo hi := by
  unfold clamp
  split_ifs <;> linarith

theorem clamp_mem_upper {v lo hi : ℚ} (hlh : lo ≤ hi) : clamp v lo hi ≤ hi := by
  unfold clamp
  split_ifs <;> linarith

theorem clamp_idem {v lo hi : ℚ} (hlh : lo ≤ hi) :
    clamp (clamp v lo hi) lo hi = clamp v lo hi :=
  clamp_eq_self (clamp_mem_lower hlh) (clamp_mem_upper hlh)

theorem stdRound_intCast (k : ℤ) : stdRound (k : ℚ) = k := by
  unfold stdRound
  split_ifs with h
  · refine Int.floor_eq_iff.mpr ⟨by linarith, by norm_num⟩
  · refine Int.ceil_eq_iff.mpr ⟨by norm_num, by linarith⟩

theorem stdRound_le (x : ℚ) (n : ℤ) (h : x ≤ (n : ℚ)) : stdRound x ≤ n := by
  unfold stdRound
  split_ifs with h0
  · have hlt : ⌊x + 1 / 2⌋ < n + 1 := Int.floor_lt.mpr (by push_cast; linarith)
    omega
  · exact Int.ceil_le.mpr (by linarith)

theorem stdRound_ge (x : ℚ) (n : ℤ) (h : (n : ℚ) ≤ x) : n ≤ stdRound x := by
  unfold stdRound
  split_ifs with h0
  · exact Int.le_floor.mpr (by linarith)
  · have hlt : n - 1 < ⌈x - 1 / 2⌉ := Int.lt_ceil.mpr (by push_cast; linarith)
    omega

theorem stdRound_abs_le (x : ℚ) : |(stdRound x : ℚ) - x| ≤ 1 / 2 := by
  unfold stdRound
  split_ifs with h0
  · rw [abs_le]
    constructor
    · have hub := Int.lt_floor_add_one (x + 1 / 2)
      push_cast at hub ⊢
      linarith
    · have hlb := Int.floor_le (x + 1 / 2)
      push_cast at hlb ⊢
      linarith
  · rw [abs_le]
    constructor
    · have hlb := Int.le_ceil (x - 1 / 2)
      push_cast at hlb ⊢
      linarith
    · have hub := Int.ceil_lt_add_one (x - 1 / 2)
      push_cast at hub ⊢
      linarith

theorem SAMPLING_PERIOD_pos : (0 : ℚ) < SAMPLING_PERIOD := by
  norm_num [SAMPLING_PERIOD]

theorem grid_multiple (m j : ℤ) (hi : ℚ) (hj : hi = (j : ℚ) * SAMPLING_PERIOD) :
    ∃ k : ℤ, clamp ((m : ℚ) * SAMPLING_PERIOD) 0 hi = (k : ℚ) * SAMPLING_PERIOD := by
  unfold clamp
  split_ifs
  · exact ⟨j, hj⟩
  · exact ⟨0, by norm_num⟩
  · exact ⟨m, rfl⟩

theorem grid_set_idem (d : ℚ) (j : ℤ) (hi : ℚ)
    (hj : hi = (j : ℚ) * SAMPLING_PERIOD) (h0 : 0 ≤ hi) :
    clamp ((stdRound (clamp ((stdRound (d / SAMPLING_PERIOD) : ℚ) *
        SAMPLING_PERIOD) 0 hi / SAMPLING_PERIOD) : ℚ) * SAMPLING_PERIOD) 0 hi =
      clamp ((stdRound (d / SAMPLING_PERIOD) : ℚ) * SAMPLING_PERIOD) 0 hi := by
  obtain ⟨k, hk⟩ := grid_multiple (stdRound (d / SAMPLING_PERIOD)) j hi hj
  have hmem1 : (0 : ℚ) ≤ clamp ((stdRound (d / SAMPLING_PERIOD) : ℚ) *
      SAMPLING_PERIOD) 0 hi := clamp_mem_lower h0
  have hmem2 : clamp ((stdRound (d / SAMPLING_PERIOD) : ℚ) *
      SAMPLING_PERIOD) 0 hi ≤ hi := clamp_mem_upper h0
  rw [hk] at hmem1 hmem2 ⊢
  have hT : SAMPLING_PERIOD ≠ 0 := ne_of_gt SAMPLING_PERIOD_pos
  rw [mul_div_cancel_right₀ _ hT, stdRound_intCast]
  exact clamp_eq_self hmem1 hmem2

theorem grid_clamp_neg (d : ℚ) (hi : ℚ) (h : d < 0) (h0 : 0 ≤ hi) :
    clamp ((stdRound (d / SAMPLING_PERIOD) : ℚ) * SAMPLING_PERIOD) 0 hi = 0 := by
  have hT := SAMPLING_PERIOD_pos
  have h1 : d / SAMPLING_PERIOD ≤ ((0 : ℤ) : ℚ) := by
    push_cast
    exact le_of_lt (div_neg_of_neg_of_pos h hT)
  have h2 : stdRound (d / SAMPLING_PERIOD) ≤ 0 := stdRound_le _ 0 h1
  have h3 : (stdRound (d / SAMPLING_PERIOD) : ℚ) ≤ 0 := by exact_mod_cast h2
  have h4 : (stdRound (d / SAMPLING_PERIOD) : ℚ) * SAMPLING_PERIOD ≤ 0 := by
    nlinarith
  unfold clamp
  split_ifs <;> linarith

theorem comHeightSet_idem (p : FootstepPlan) (d : ℚ) :
    (p.comHeightSet d).comHeightSet ((p.comHeightSet d).comHeight_) =
      p.comHeightSet d := by
  show { p with
      comHeight_ := clamp (clamp d (7 / 10) (17 / 20)) (7 / 10) (17 / 20) } =
    { p with comHeight_ := clamp d (7 / 10) (17 / 20) }
  rw [clamp_idem (by norm_num)]

theorem initDSPDurationSet_idem (p : FootstepPlan) (d : ℚ) :
    (p.initDSPDurationSet d).initDSPDurationSet
        ((p.initDSPDurationSet d).initDSPDuration_) = p.initDSPDurationSet d := by
  show { p with initDSPDuration_ := clamp (clamp d 0 (8 / 5)) 0 (8 / 5) } =
    { p with initDSPDuration_ := clamp d 0 (8 / 5) }
  rw [clamp_idem (by norm_num)]

theorem finalDSPDurationSet_idem (p : FootstepPlan) (d : ℚ) :
    (p.finalDSPDurationSet d).finalDSPDurationSet
        ((p.finalDSPDurationSet d).finalDSPDuration_) = p.finalDSPDurationSet d := by
  show { p with finalDSPDuration_ := clamp (clamp d 0 (8 / 5)) 0 (8 / 5) } =
    { p with finalDSPDuration_ := clamp d 0 (8 / 5) }
  rw [clamp_idem (by norm_num)]

theorem landingPitchSet_idem (p : FootstepPlan) (d : ℚ) :
    (p.landingPitchSet d).landingPitchSet
        ((p.landingPitchSet d).landingPitch_) = p.landingPitchSet d := by
  show { p with landingPitch_ := clamp (clamp d (-1) 1) (-1) 1 } =
    { p with landingPitch_ := clamp d (-1) 1 }
  rw [clamp_idem (by norm_num)]

theorem takeoffPitchSet_idem (p : FootstepPlan) (d : ℚ) :
    (p.takeoffPitchSet d).takeoffPitchSet
        ((p.takeoffPitchSet d).takeoffPitch_) = p.takeoffPitchSet d := by
  show { p with takeoffPitch_ := clamp (clamp d (-1) 1) (-1) 1 } =
    { p with takeoffPitch_ := clamp d (-1) 1 }
  rw [clamp_idem (by norm_num)]

theorem swingHeightSet_idem (p : FootstepPlan) (d : ℚ) :
    (p.swingHeightSet d).swingHeightSet
        ((p.swingHeightSet d).swingHeight_) = p.swingHeightSet d := by
  show { p with swingHeight_ := clamp (clamp d 0 (1 / 4)) 0 (1 / 4) } =
    { p with swingHeight_ := clamp d 0 (1 / 4) }
  rw [clamp_idem (by norm_num)]

theorem landingRatioSet_idem (p : FootstepPlan) (d : ℚ) :
    (p.landingRatioSet d).landingRatioSet
        ((p.landingRatioSet d).landingRatio_) = p.landingRatioSet d := by
  show { p with landingRatio_ := clamp (clamp d 0 (1 / 2)) 0 (1 / 2) } =
    { p with landingRatio_ := clamp d 0 (1 / 2) }
  rw [clamp_idem (by norm_num)]

theorem takeoffRatioSet_idem (p : FootstepPlan) (d : ℚ) :
    (p.takeoffRatioSet d).takeoffRatioSet
        ((p.takeoffRatioSet d).takeoffRatio_) = p.takeoffRatioSet d := by
  show { p with takeoffRatio_ := clamp (clamp d 0 (1 / 2)) 0 (1 / 2) } =
    { p with takeoffRatio_ := clamp d 0 (1 / 2) }
  rw [clamp_idem (by norm_num)]

theorem grid_clamp_hi (d : ℚ) (j : ℤ) (hi : ℚ)
    (hj : hi = (j : ℚ) * SAMPLING_PERIOD) (h : hi < d) (h0 : 0 ≤ hi) :
    clamp ((stdRound (d / SAMPLING_PERIOD) : ℚ) * SAMPLING_PERIOD) 0 hi = hi := by
  have hT := SAMPLING_PERIOD_pos
  have h1 : (j : ℚ) ≤ d / SAMPLING_PERIOD := by
    rw [le_div_iff₀ hT]
    rw [hj] at h
    linarith
  have h2 : j ≤ stdRound (d / SAMPLING_PERIOD) := stdRound_ge _ j h1
  have h3 : hi ≤ (stdRound (d / SAMPLING_PERIOD) : ℚ) * SAMPLING_PERIOD := by
    rw [hj]
    have : (j : ℚ) ≤ (stdRound (d / SAMPLING_PERIOD) : ℚ) := by exact_mod_cast h2
    nlinarith
  exact clamp_eq_of_ge_upper h3 h0

theorem restore_some {p q : FootstepPlan}
    (h : p.restorePreviousFootstep = some q) :
    ∃ pr su ta ne, p.restorePoint_ = some (pr, su, ta, ne) ∧
      q = { p with
            prevContact_ := pr
            supportContact_ := su
            targetContact_ := ta
            nextContact_ := ne
            nextFootstep_ := p.nextFootstep_ - 1
            restorePoint_ := none } := by
  unfold FootstepPlan.restorePreviousFootstep at h
  cases hq : p.restorePoint_ with
  | none => rw [hq] at h; simp at h
  | some quad =>
      obtain ⟨pr, su, ta, ne⟩ := quad
      rw [hq] at h
      simp only [Option.some.injEq] at h
      exact ⟨pr, su, ta, ne, rfl, h.symm⟩

theorem quadInv_stepQuad {last : ℕ} {q : ℕ × ℕ × ℕ × ℕ} (h : quadInv last q) :
    quadInv last (stepQuad last q) := by
  obtain ⟨pr, su, ta, ne⟩ := q
  simp only [quadInv, stepQuad, and_true, true_and] at h ⊢
  omega

theorem quadInv_mono {last : ℕ} {q : ℕ × ℕ × ℕ × ℕ} (h : quadInv last q) :
    q.1 ≤ (stepQuad last q).1 ∧ q.2.1 ≤ (stepQuad last q).2.1 ∧
      q.2.2.1 ≤ (stepQuad last q).2.2.1 ∧ q.2.2.2 ≤ (stepQuad last q).2.2.2 := by
  obtain ⟨pr, su, ta, ne⟩ := q
  simp only [quadInv, stepQuad] at h ⊢
  omega

theorem quadInv_le_last {last : ℕ} {q : ℕ × ℕ × ℕ × ℕ} (h : quadInv last q) :
    q.1 ≤ last ∧ q.2.1 ≤ last ∧ q.2.2.1 ≤ last ∧ q.2.2.2 ≤ last := by
  obtain ⟨pr, su, ta, ne⟩ := q
  simp only [quadInv] at h ⊢
  omega

theorem Inv_reset (p : FootstepPlan) (i : ℕ) (h : i < p.contacts_.length) :
    (p.reset i).Inv := by
  constructor
  · show quadInv p.lastIndex
      (i, i, min (i + 1) p.lastIndex, min (i + 2) p.lastIndex)
    simp only [quadInv, le_refl, true_and, and_true]
    unfold FootstepPlan.lastIndex
    omega
  · intro q hq
    simp only [FootstepPlan.reset] at hq
    simp at hq

theorem Inv_goToNext {q : FootstepPlan} (h : q.Inv) : q.goToNextFootstep.Inv := by
  obtain ⟨h1, h2⟩ := h
  constructor
  · exact quadInv_stepQuad h1
  · intro r hr
    have hr2 : some q.roles = some r := hr
    injection hr2 with hr3
    rw [← hr3]
    exact h1

theorem Inv_restore {q r : FootstepPlan} (h : q.Inv)
    (hr : q.restorePreviousFootstep = some r) : r.Inv := by
  obtain ⟨pr, su, ta, ne, hq, hr2⟩ := restore_some hr
  subst hr2
  constructor
  · exact h.2 _ (Option.mem_def.mpr hq)
  · intro x hx
    simp at hx

theorem reachable_inv {p q : FootstepPlan} (h : Reachable p q) : q.Inv := by
  induction h with
  | reset i hi => exact Inv_reset p i hi
  | next _ ih => exact Inv_goToNext ih
  | restore _ hr ih => exact Inv_restore ih hr

theorem reachable_contacts {p q : FootstepPlan} (h : Reachable p q) :
    q.contacts_ = p.contacts_ := by
  induction h with
  | reset i hi => rfl
  | next _ ih => exact ih
  | restore _ hr ih =>
      obtain ⟨pr, su, ta, ne, hq, hr2⟩ := restore_some hr
      subst hr2
      exact ih

theorem reachable_stepN (p : FootstepPlan) (start : ℕ)
    (h : start < p.contacts_.length) (N : ℕ) :
    Reachable p ((p.reset start).stepN N) := by
  induction N with
  | zero => exact Reachable.reset start h
  | succ n ih => exact Reachable.next ih

/-- Claim C1: for every pair of measured vertical foot forces, the
left-foot weight ratio is computed as max(0,Fl)/(max(0,Fl)+max(0,Fr)) and
lies in [0,1]; when both clamped forces are zero the division-by-zero is
detected, the previous ratio is retained and the jump indicator is set, so
the ratio update never stores a non-finite value. -/
theorem C1_weight_ratio_bound (s : ControllerState) (fl fr : ℚ) :
    (max 0 fl + max 0 fr ≠ 0 →
      (s.updateLeftFootRatio fl fr).leftFootRatio_ =
          max 0 fl / (max 0 fl + max 0 fr) ∧
        0 ≤ (s.updateLeftFootRatio fl fr).leftFootRatio_ ∧
        (s.updateLeftFootRatio fl fr).leftFootRatio_ ≤ 1) ∧
    (max 0 fl + max 0 fr = 0 →
      (s.updateLeftFootRatio fl fr).leftFootRatio_ = s.leftFootRatio_ ∧
        (s.updateLeftFootRatio fl fr).leftFootRatioJumped_ = true) := by
  constructor
  · intro h
    have ha : (0 : ℚ) ≤ max 0 fl := le_max_left 0 fl
    have hb : (0 : ℚ) ≤ max 0 fr := le_max_left 0 fr
    have hpos : 0 < max 0 fl + max 0 fr :=
      lt_of_le_of_ne (by linarith) (Ne.symm h)
    have e : (s.updateLeftFootRatio fl fr).leftFootRatio_ =
        max 0 fl / (max 0 fl + max 0 fr) := by
      unfold ControllerState.updateLeftFootRatio
      rw [if_neg h]
      rfl
    refine ⟨e, ?_, ?_⟩
    · rw [e]
      exact div_nonneg ha hpos.le
    · rw [e, div_le_one hpos]
      linarith
  · intro h
    have e : s.updateLeftFootRatio fl fr =
        { s with leftFootRatioJumped_ := true } := by
      unfold ControllerState.updateLeftFootRatio
      rw [if_pos h]
    rw [e]
    exact ⟨rfl, rfl⟩

/-- Concrete check of C1_weight_ratio_bound: forces (3,1) give ratio 3/4,
and the all-negative pair keeps the previous ratio 1/2 and sets the flag. -/
theorem C1_weight_ratio_bound_check :
    (sampleController.updateLeftFootRatio 3 1).leftFootRatio_ = 3 / 4 ∧
    ((sampleController.updateLeftFootRatio (-1) (-2)).leftFootRatio_ = 1 / 2 ∧
      (sampleController.updateLeftFootRatio (-1) (-2)).leftFootRatioJumped_ =
        true) := by
  have h1 := (C1_weight_ratio_bound sampleController 3 1).1 (by norm_num)
  have h2 := (C1_weight_ratio_bound sampleController (-1) (-2)).2 (by norm_num)
  refine ⟨?_, ?_, h2.2⟩
  · rw [h1.1]
    norm_num
  · exact h2.1

/-- Claim C5: a control cycle whose WPG update fails to solve leaves the
pendulum and the shared preview exactly as after the previous successful
cycle, increments the failing generator update and failure counters, and
leaves the other generator counters untouched; compared with a successful
call, the failure changes nothing but the failure counter and the skipped
pendulum/preview write. -/
theorem C5_failed_update_isolation (s : ControllerState) (pd : Pendulum)
    (pv : Preview) :
    (s.updatePreviewCPS none).1.pendulum_ = s.pendulum_ ∧
    (s.updatePreviewCPS none).1.preview = s.preview ∧
    (s.updatePreviewCPS none).1.nbCPSFailures_ = s.nbCPSFailures_ + 1 ∧
    (s.updatePreviewCPS none).1.nbCPSUpdates_ = s.nbCPSUpdates_ + 1 ∧
    (s.updatePreviewCPS none).1.nbHMPCFailures_ = s.nbHMPCFailures_ ∧
    (s.updatePreviewCPS none).1.nbHMPCUpdates_ = s.nbHMPCUpdates_ ∧
    (s.updatePreviewCPS none).1.plan = s.plan ∧
    (s.updatePreviewCPS none).2 = false ∧
    (s.updatePreviewCPS none).1.nbCPSUpdates_ =
      (s.updatePreviewCPS (some (pd, pv))).1.nbCPSUpdates_ ∧
    (s.updatePreviewCPS (some (pd, pv))).1.nbCPSFailures_ = s.nbCPSFailures_ ∧
    (s.updatePreviewHMPC none).1.pendulum_ = s.pendulum_ ∧
    (s.updatePreviewHMPC none).1.preview = s.preview ∧
    (s.updatePreviewHMPC none).1.nbHMPCFailures_ = s.nbHMPCFailures_ + 1 ∧
    (s.updatePreviewHMPC none).1.nbHMPCUpdates_ = s.nbHMPCUpdates_ + 1 ∧
    (s.updatePreviewHMPC none).1.nbCPSFailures_ = s.nbCPSFailures_ ∧
    (s.updatePreviewHMPC none).1.nbCPSUpdates_ = s.nbCPSUpdates_ ∧
    (s.updatePreviewHMPC none).2 = false := by
  exact ⟨rfl, rfl, rfl, rfl, rfl, rfl, rfl, rfl, rfl, rfl, rfl, rfl, rfl,
    rfl, rfl, rfl, rfl⟩

/-- Claim C6: one backward transition right after a forward transition
restores exactly the role-pointer configuration that held before it, and a
second consecutive backward transition is detected as an error (none)
rather than silently executed. -/
theorem C6_single_backward_rewind (q : FootstepPlan) :
    Option.map FootstepPlan.roles q.goToNextFootstep.restorePreviousFootstep =
        some q.roles ∧
    Option.bind q.goToNextFootstep.restorePreviousFootstep
        FootstepPlan.restorePreviousFootstep = none := by
  exact ⟨rfl, rfl⟩

/-- Claim C9: every swing-parameter getter returns the override carried by
the relevant current contact (prevContact for height, the pitches and the
takeoff offset; supportContact for the two ratios) when present, and the
plan-wide default otherwise; the lookup never writes the default into the
contact, the getters being pure. -/
theorem C9_swing_override_shadowing (p : FootstepPlan) (q : ℚ) (v : Vec3) :
    (p.prevContact.swingConfig.height = some q → p.swingHeight = q) ∧
    (p.prevContact.swingConfig.height = none →
      p.swingHeight = p.swingHeight_) ∧
    (p.prevContact.swingConfig.takeoffPitchKey = some q →
      p.takeoffPitch = q) ∧
    (p.prevContact.swingConfig.takeoffPitchKey = none →
      p.takeoffPitch = p.takeoffPitch_) ∧
    (p.prevContact.swingConfig.landingPitchKey = some q →
      p.landingPitch = q) ∧
    (p.prevContact.swingConfig.landingPitchKey = none →
      p.landingPitch = p.landingPitch_) ∧
    (p.prevContact.swingConfig.takeoffOffsetKey = some v →
      p.takeoffOffset = v) ∧
    (p.prevContact.swingConfig.takeoffOffsetKey = none →
      p.takeoffOffset = p.takeoffOffset_) ∧
    (p.supportContact.swingConfig.takeoffRatioKey = some q →
      p.takeoffRatio = q) ∧
    (p.supportContact.swingConfig.takeoffRatioKey = none →
      p.takeoffRatio = p.takeoffRatio_) ∧
    (p.supportContact.swingConfig.landingRatioKey = some q →
      p.landingRatio = q) ∧
    (p.supportContact.swingConfig.landingRatioKey = none →
      p.landingRatio = p.landingRatio_) := by
  refine ⟨fun h => ?_, fun h => ?_, fun h => ?_, fun h => ?_, fun h => ?_,
    fun h => ?_, fun h => ?_, fun h => ?_, fun h => ?_, fun h => ?_,
    fun h => ?_, fun h => ?_⟩ <;>
    simp [FootstepPlan.swingHeight, FootstepPlan.takeoffPitch,
      FootstepPlan.landingPitch, FootstepPlan.takeoffOffset,
      FootstepPlan.takeoffRatio, FootstepPlan.landingRatio, h]

/-- Concrete check of C9_swing_override_shadowing: the override plan reads
the per-contact height 9/100 while the default plan falls back to the
plan-wide default 4/100. -/
theorem C9_swing_override_shadowing_check :
    overridePlan.swingHeight = 9 / 100 ∧ defaultPlan.swingHeight = 4 / 100 := by
  have h1 := C9_swing_override_shadowing overridePlan (9 / 100) ⟨0, 0, 0⟩
  have h2 := C9_swing_override_shadowing defaultPlan (9 / 100) ⟨0, 0, 0⟩
  exact ⟨h1.1 rfl, h2.2.1 rfl⟩

/-- Claim C10: the double-support duration override of the controller is
one-shot: a positive override is returned by the next call of the getter,
which clears it so later calls return the plan default; a non-positive
override never takes effect. -/
theorem C10_dsp_override_one_shot (s : ControllerState) (d : ℚ) :
    (0 < d →
      ((s.nextDoubleSupportDuration d).doubleSupportDuration).1 = d ∧
        ((s.nextDoubleSupportDuration
            d).doubleSupportDuration).2.doubleSupportDurationOverride_ = -1 ∧
        (((s.nextDoubleSupportDuration
            d).doubleSupportDuration).2.doubleSupportDuration).1 =
          s.plan.doubleSupportDuration_) ∧
    (d ≤ 0 →
      ((s.nextDoubleSupportDuration d).doubleSupportDuration).1 =
          s.plan.doubleSupportDuration_ ∧
        ((s.nextDoubleSupportDuration d).doubleSupportDuration).2 =
          s.nextDoubleSupportDuration d) := by
  constructor
  · intro h
    have e1 : (s.nextDoubleSupportDuration d).doubleSupportDuration =
        (d, { s with doubleSupportDurationOverride_ := -1 }) := by
      unfold ControllerState.doubleSupportDuration
        ControllerState.nextDoubleSupportDuration
      rw [if_pos h]
    rw [e1]
    refine ⟨rfl, rfl, ?_⟩
    unfold ControllerState.doubleSupportDuration
    rw [if_neg (by norm_num)]
    rfl
  · intro h
    have e1 : (s.nextDoubleSupportDuration d).doubleSupportDuration =
        (s.plan.doubleSupportDuration, s.nextDoubleSupportDuration d) := by
      unfold ControllerState.doubleSupportDuration
        ControllerState.nextDoubleSupportDuration
      rw [if_neg (not_lt.mpr h)]
    rw [e1]
    exact ⟨rfl, rfl⟩

/-- Concrete check of C10_dsp_override_one_shot: an override of 3/10 is
returned once, then the plan default 2/10 again. -/
theorem C10_dsp_override_one_shot_check :
    (ControllerState.doubleSupportDuration
        (sampleController.nextDoubleSupportDuration (3 / 10))).1 = 3 / 10 ∧
    (ControllerState.doubleSupportDuration
        (ControllerState.doubleSupportDuration
          (sampleController.nextDoubleSupportDuration (3 / 10))).2).1 =
      2 / 10 := by
  have h := (C10_dsp_override_one_shot sampleController (3 / 10)).1
    (by norm_num)
  exact ⟨h.1, h.2.2⟩

/-- Counterexample to claim C3 as stated: the initDSPDuration setter stores
0.05 unchanged, a value that is not a multiple of the 0.1 s sampling
period, so not every duration setter rounds to the sampling grid. -/
theorem C3_init_dsp_not_on_grid :
    (defaultPlan.initDSPDurationSet (1 / 20)).initDSPDuration_ = 1 / 20 ∧
    ¬ ∃ k : ℤ, (1 / 20 : ℚ) = (k : ℚ) * SAMPLING_PERIOD := by
  constructor
  · show clamp (1 / 20 : ℚ) 0 (8 / 5) = 1 / 20
    refine clamp_eq_self ?_ ?_ <;> norm_num
  · rintro ⟨k, hk⟩
    rw [SAMPLING_PERIOD] at hk
    have h2 : ((2 * k : ℤ) : ℚ) = 1 := by
      push_cast
      linarith
    have h3 : (2 * k : ℤ) = 1 := by exact_mod_cast h2
    omega

/-- Claim C3, amended: the double- and single-support duration setters
round to the nearest multiple of the sampling period and then clamp, so
those two stored durations are always multiples of the period; the
initDSPDuration and finalDSPDuration setters only clamp to [0, 1.6],
without rounding. -/
theorem C3_duration_quantization (p : FootstepPlan) (d : ℚ) :
    (∃ k : ℤ, (p.doubleSupportDurationSet d).doubleSupportDuration_ =
      (k : ℚ) * SAMPLING_PERIOD) ∧
    (∃ k : ℤ, (p.singleSupportDurationSet d).singleSupportDuration_ =
      (k : ℚ) * SAMPLING_PERIOD) ∧
    (p.initDSPDurationSet d).initDSPDuration_ = clamp d 0 (8 / 5) ∧
    (p.finalDSPDurationSet d).finalDSPDuration_ = clamp d 0 (8 / 5) ∧
    |(stdRound (d / SAMPLING_PERIOD) : ℚ) * SAMPLING_PERIOD - d| ≤
      SAMPLING_PERIOD / 2 := by
  refine ⟨?_, ?_, rfl, rfl, ?_⟩
  · exact grid_multiple (stdRound (d / SAMPLING_PERIOD)) 10 1
      (by norm_num [SAMPLING_PERIOD])
  · exact grid_multiple (stdRound (d / SAMPLING_PERIOD)) 20 2
      (by norm_num [SAMPLING_PERIOD])
  · have h := stdRound_abs_le (d / SAMPLING_PERIOD)
    have hT := SAMPLING_PERIOD_pos
    have e : (stdRound (d / SAMPLING_PERIOD) : ℚ) * SAMPLING_PERIOD - d =
        ((stdRound (d / SAMPLING_PERIOD) : ℚ) - d / SAMPLING_PERIOD) *
          SAMPLING_PERIOD := by
      field_simp
    rw [e, abs_mul, abs_of_pos hT]
    nlinarith [abs_nonneg ((stdRound (d / SAMPLING_PERIOD) : ℚ) -
      d / SAMPLING_PERIOD)]

/-- Concrete check of C3_duration_quantization: the stored double-support
duration for input 0.13 is a grid multiple. -/
theorem C3_duration_quantization_check :
    ∃ k : ℤ, (defaultPlan.doubleSupportDurationSet
      (13 / 100)).doubleSupportDuration_ = (k : ℚ) * SAMPLING_PERIOD :=
  (C3_duration_quantization defaultPlan (13 / 100)).1

/-- Counterexample to claim C4 as stated: the doubleSupportDuration setter
does not store the value clamped to its range: for the in-range input 0.13
it stores the rounded value 0.1 instead of clamp(0.13, 0, 1) = 0.13. -/
theorem C4_duration_setter_not_plain_clamp :
    (defaultPlan.doubleSupportDurationSet (13 / 100)).doubleSupportDuration_ =
      1 / 10 ∧
    clamp (13 / 100) 0 1 = 13 / 100 ∧ (1 / 10 : ℚ) ≠ 13 / 100 := by
  refine ⟨?_, ?_, by norm_num⟩
  swap
  · show clamp (13 / 100 : ℚ) 0 1 = 13 / 100
    refine clamp_eq_self ?_ ?_ <;> norm_num
  show clamp ((stdRound ((13 / 100 : ℚ) / SAMPLING_PERIOD) : ℚ) *
    SAMPLING_PERIOD) 0 1 = 1 / 10
  rw [show ((13 / 100 : ℚ) / SAMPLING_PERIOD) = 13 / 10 by
    norm_num [SAMPLING_PERIOD]]
  rw [show stdRound (13 / 10 : ℚ) = 1 by
    unfold stdRound
    rw [if_pos (by norm_num)]
    norm_num [Int.floor_eq_iff]]
  rw [SAMPLING_PERIOD]
  norm_num [clamp]

/-- Claim C4, amended: every setter with a documented range stores the
input clamped to that range, except the double- and single-support duration
setters which first round to the sampling grid, and the takeoff-offset
setter which stores the offset unmodified; out-of-range inputs map to the
nearest range boundary for every parameter, every setter is idempotent on
its own output, and getters return stored values without clamping. -/
theorem C4_clamp_validation (p : FootstepPlan) (d : ℚ) (v : Vec3) :
    (d < 7 / 10 → (p.comHeightSet d).comHeight_ = 7 / 10) ∧
    (17 / 20 ≤ d → (p.comHeightSet d).comHeight_ = 17 / 20) ∧
    (p.comHeightSet d).comHeightSet ((p.comHeightSet d).comHeight_) =
      p.comHeightSet d ∧
    (d < 0 → (p.initDSPDurationSet d).initDSPDuration_ = 0) ∧
    (8 / 5 ≤ d → (p.initDSPDurationSet d).initDSPDuration_ = 8 / 5) ∧
    (p.initDSPDurationSet d).initDSPDurationSet
      ((p.initDSPDurationSet d).initDSPDuration_) = p.initDSPDurationSet d ∧
    (d < 0 → (p.finalDSPDurationSet d).finalDSPDuration_ = 0) ∧
    (8 / 5 ≤ d → (p.finalDSPDurationSet d).finalDSPDuration_ = 8 / 5) ∧
    (p.finalDSPDurationSet d).finalDSPDurationSet
      ((p.finalDSPDurationSet d).finalDSPDuration_) = p.finalDSPDurationSet d ∧
    (d < -1 → (p.landingPitchSet d).landingPitch_ = -1) ∧
    (1 ≤ d → (p.landingPitchSet d).landingPitch_ = 1) ∧
    (p.landingPitchSet d).landingPitchSet
      ((p.landingPitchSet d).landingPitch_) = p.landingPitchSet d ∧
    (d < -1 → (p.takeoffPitchSet d).takeoffPitch_ = -1) ∧
    (1 ≤ d → (p.takeoffPitchSet d).takeoffPitch_ = 1) ∧
    (p.takeoffPitchSet d).takeoffPitchSet
      ((p.takeoffPitchSet d).takeoffPitch_) = p.takeoffPitchSet d ∧
    (d < 0 → (p.swingHeightSet d).swingHeight_ = 0) ∧
    (1 / 4 ≤ d → (p.swingHeightSet d).swingHeight_ = 1 / 4) ∧
    (p.swingHeightSet d).swingHeightSet
      ((p.swingHeightSet d).swingHeight_) = p.swingHeightSet d ∧
    (d < 0 → (p.landingRatioSet d).landingRatio_ = 0) ∧
    (1 / 2 ≤ d → (p.landingRatioSet d).landingRatio_ = 1 / 2) ∧
    (p.landingRatioSet d).landingRatioSet
      ((p.landingRatioSet d).landingRatio_) = p.landingRatioSet d ∧
    (d < 0 → (p.takeoffRatioSet d).takeoffRatio_ = 0) ∧
    (1 / 2 ≤ d → (p.takeoffRatioSet d).takeoffRatio_ = 1 / 2) ∧
    (p.takeoffRatioSet d).takeoffRatioSet
      ((p.takeoffRatioSet d).takeoffRatio_) = p.takeoffRatioSet d ∧
    (d < 0 → (p.doubleSupportDurationSet d).doubleSupportDuration_ = 0) ∧
    (1 < d → (p.doubleSupportDurationSet d).doubleSupportDuration_ = 1) ∧
    (p.doubleSupportDurationSet d).doubleSupportDurationSet
      ((p.doubleSupportDurationSet d).doubleSupportDuration_) =
      p.doubleSupportDurationSet d ∧
    (d < 0 → (p.singleSupportDurationSet d).singleSupportDuration_ = 0) ∧
    (2 < d → (p.singleSupportDurationSet d).singleSupportDuration_ = 2) ∧
    (p.singleSupportDurationSet d).singleSupportDurationSet
      ((p.singleSupportDurationSet d).singleSupportDuration_) =
      p.singleSupportDurationSet d ∧
    (p.takeoffOffsetSet v).takeoffOffset_ = v ∧
    (p.takeoffOffsetSet v).takeoffOffsetSet
      ((p.takeoffOffsetSet v).takeoffOffset_) = p.takeoffOffsetSet v ∧
    p.comHeight = p.comHeight_ ∧
    p.doubleSupportDuration = p.doubleSupportDuration_ ∧
    p.singleSupportDuration = p.singleSupportDuration_ ∧
    p.initDSPDuration = p.initDSPDuration_ ∧
    p.finalDSPDuration = p.finalDSPDuration_ := by
  refine ⟨fun h => clamp_eq_of_lt_lower h (by norm_num),
    fun h => clamp_eq_of_ge_upper h (by norm_num),
    comHeightSet_idem p d,
    fun h => clamp_eq_of_lt_lower h (by norm_num),
    fun h => clamp_eq_of_ge_upper h (by norm_num),
    initDSPDurationSet_idem p d,
    fun h => clamp_eq_of_lt_lower h (by norm_num),
    fun h => clamp_eq_of_ge_upper h (by norm_num),
    finalDSPDurationSet_idem p d,
    fun h => clamp_eq_of_lt_lower h (by norm_num),
    fun h => clamp_eq_of_ge_upper h (by norm_num),
    landingPitchSet_idem p d,
    fun h => clamp_eq_of_lt_lower h (by norm_num),
    fun h => clamp_eq_of_ge_upper h (by norm_num),
    takeoffPitchSet_idem p d,
    fun h => clamp_eq_of_lt_lower h (by norm_num),
    fun h => clamp_eq_of_ge_upper h (by norm_num),
    swingHeightSet_idem p d,
    fun h => clamp_eq_of_lt_lower h (by norm_num),
    fun h => clamp_eq_of_ge_upper h (by norm_num),
    landingRatioSet_idem p d,
    fun h => clamp_eq_of_lt_lower h (by norm_num),
    fun h => clamp_eq_of_ge_upper h (by norm_num),
    takeoffRatioSet_idem p d,
    fun h => grid_clamp_neg d 1 h (by norm_num),
    fun h => grid_clamp_hi d 10 1 (by norm_num [SAMPLING_PERIOD]) h
      (by norm_num),
    ?_,
    fun h => grid_clamp_neg d 2 h (by norm_num),
    fun h => grid_clamp_hi d 20 2 (by norm_num [SAMPLING_PERIOD]) h
      (by norm_num),
    ?_,
    rfl, rfl, rfl, rfl, rfl, rfl, rfl⟩
  · exact congrArg (fun x => { p with doubleSupportDuration_ := x })
      (grid_set_idem d 10 1 (by norm_num [SAMPLING_PERIOD]) (by norm_num))
  · exact congrArg (fun x => { p with singleSupportDuration_ := x })
      (grid_set_idem d 20 2 (by norm_num [SAMPLING_PERIOD]) (by norm_num))

/-- Concrete check of C4_clamp_validation: an out-of-range CoM height is
clamped to the upper boundary and re-applying the setter changes nothing. -/
theorem C4_clamp_validation_check :
    (defaultPlan.comHeightSet 2).comHeight_ = 17 / 20 ∧
    (defaultPlan.comHeightSet 2).comHeightSet
      ((defaultPlan.comHeightSet 2).comHeight_) = defaultPlan.comHeightSet 2 := by
  have h := C4_clamp_validation defaultPlan 2 ⟨0, 0, 0⟩
  exact ⟨h.2.1 (by norm_num), h.2.2.1⟩

/-- Counterexample to claim C2 as stated: on the four-contact plan of spec
section 8, the reachable state after three forward transitions is not the
plan start (prev is not support) yet support.id < target.id fails and
target.id is not support.id + 1, because the role pointers clamp to the
last contact at the plan end. -/
theorem C2_strict_ordering_fails_at_plan_end :
    Reachable plan4 planEndState ∧
    plan4.wf ∧
    planEndState.prevContact ≠ planEndState.supportContact ∧
    ¬ planEndState.supportContact.id < planEndState.targetContact.id ∧
    planEndState.targetContact.id ≠ planEndState.supportContact.id + 1 := by
  refine ⟨?_, by decide, by decide, by decide, by decide⟩
  exact Reachable.next (Reachable.next (Reachable.next
    (Reachable.reset 0 (by decide))))

/-- Claim C2, amended: at every reachable state of a well-formed plan the
role pointers satisfy prev.id ≤ support.id ≤ target.id ≤ next.id with
target.id = min(support.id + 1, last id); the strict step
target.id = support.id + 1 (hence support.id < target.id) holds whenever
the support contact is not the last contact, and can fail at the plan end
where the pointers clamp to the last contact (and prev = support at plan
start). -/
theorem C2_role_pointer_ordering (p q : FootstepPlan) (hwf : p.wf)
    (hq : Reachable p q) :
    q.prevContact.id ≤ q.supportContact.id ∧
    q.supportContact.id ≤ q.targetContact.id ∧
    q.targetContact.id ≤ q.nextContact.id ∧
    q.targetContact.id =
      min (q.supportContact.id + 1) (p.contactAt p.lastIndex).id ∧
    (q.supportContact.id < (p.contactAt p.lastIndex).id →
      q.targetContact.id = q.supportContact.id + 1) := by
  have hinv := reachable_inv hq
  have hc := reachable_contacts hq
  have hlen : 0 < p.contacts_.length := by
    have h0 : p.contacts_.length ≠ 0 := fun h0 =>
      hwf.1 (List.length_eq_zero.mp h0)
    omega
  have hLidx : p.lastIndex = p.contacts_.length - 1 := rfl
  have hlastlt : p.lastIndex < p.contacts_.length := by omega
  have hlast : q.lastIndex = p.lastIndex := by
    unfold FootstepPlan.lastIndex
    rw [hc]
  have hquad : quadInv p.lastIndex
      (q.prevContact_, q.supportContact_, q.targetContact_, q.nextContact_) := by
    rw [← hlast]
    exact hinv.1
  simp only [quadInv] at hquad
  obtain ⟨h1, h2, h3, h4⟩ := hquad
  have hb1 : q.prevContact_ < p.contacts_.length := by omega
  have hb2 : q.supportContact_ < p.contacts_.length := by omega
  have hb3 : q.targetContact_ < p.contacts_.length := by omega
  have hb4 : q.nextContact_ < p.contacts_.length := by omega
  have idq : ∀ i, i < p.contacts_.length → (q.contactAt i).id = i := by
    intro i hi
    unfold FootstepPlan.contactAt
    rw [hc]
    exact hwf.2 i hi
  have e1 : q.prevContact.id = q.prevContact_ := idq _ hb1
  have e2 : q.supportContact.id = q.supportContact_ := idq _ hb2
  have e3 : q.targetContact.id = q.targetContact_ := idq _ hb3
  have e4 : q.nextContact.id = q.nextContact_ := idq _ hb4
  have elast : (p.contactAt p.lastIndex).id = p.lastIndex :=
    hwf.2 _ hlastlt
  rw [e1, e2, e3, e4, elast]
  omega

/-- Concrete check of C2_role_pointer_ordering at the reset state of the
four-contact plan. -/
theorem C2_role_pointer_ordering_check :
    (plan4.reset 0).targetContact.id =
      min ((plan4.reset 0).supportContact.id + 1)
        (plan4.contactAt plan4.lastIndex).id := by
  have h := C2_role_pointer_ordering plan4 (plan4.reset 0) (by decide)
    (Reachable.reset 0 (by decide))
  exact h.2.2.2.1

/-- Claim C7: starting from reset, the ids of all four role pointers are
non-decreasing across forward transitions, never exceed the id of the last
contact, the role indices never leave the contact sequence (no
out-of-range access), and the all-at-last-contact configuration is a fixed
point of the forward transition. -/
theorem C7_cursor_monotonicity (p : FootstepPlan) (start N : ℕ)
    (hwf : p.wf) (hstart : start < p.contacts_.length) :
    (((p.reset start).stepN N).prevContact.id ≤
        ((p.reset start).stepN (N + 1)).prevContact.id ∧
      ((p.reset start).stepN N).supportContact.id ≤
        ((p.reset start).stepN (N + 1)).supportContact.id ∧
      ((p.reset start).stepN N).targetContact.id ≤
        ((p.reset start).stepN (N + 1)).targetContact.id ∧
      ((p.reset start).stepN N).nextContact.id ≤
        ((p.reset start).stepN (N + 1)).nextContact.id) ∧
    (((p.reset start).stepN N).prevContact.id ≤
        (p.contactAt p.lastIndex).id ∧
      ((p.reset start).stepN N).supportContact.id ≤
        (p.contactAt p.lastIndex).id ∧
      ((p.reset start).stepN N).targetContact.id ≤
        (p.contactAt p.lastIndex).id ∧
      ((p.reset start).stepN N).nextContact.id ≤
        (p.contactAt p.lastIndex).id) ∧
    (((p.reset start).stepN N).prevContact_ < p.contacts_.length ∧
      ((p.reset start).stepN N).supportContact_ < p.contacts_.length ∧
      ((p.reset start).stepN N).targetContact_ < p.contacts_.length ∧
      ((p.reset start).stepN N).nextContact_ < p.contacts_.length) ∧
    (((p.reset start).stepN N).roles =
        (p.lastIndex, p.lastIndex, p.lastIndex, p.lastIndex) →
      ((p.reset start).stepN N).goToNextFootstep.roles =
        ((p.reset start).stepN N).roles) := by
  have hreach := reachable_stepN p start hstart N
  have hinv := reachable_inv hreach
  have hc := reachable_contacts hreach
  have hlen : 0 < p.contacts_.length := by omega
  have hLidx : p.lastIndex = p.contacts_.length - 1 := rfl
  have hlastlt : p.lastIndex < p.contacts_.length := by omega
  have hlast : ((p.reset start).stepN N).lastIndex = p.lastIndex := by
    unfold FootstepPlan.lastIndex
    rw [hc]
  have hquad : quadInv p.lastIndex
      (((p.reset start).stepN N).prevContact_,
        ((p.reset start).stepN N).supportContact_,
        ((p.reset start).stepN N).targetContact_,
        ((p.reset start).stepN N).nextContact_) := by
    rw [← hlast]
    exact hinv.1
  simp only [quadInv] at hquad
  obtain ⟨h1, h2, h3, h4⟩ := hquad
  have hb1 : ((p.reset start).stepN N).prevContact_ < p.contacts_.length := by
    omega
  have hb2 : ((p.reset start).stepN N).supportContact_ <
      p.contacts_.length := by omega
  have hb3 : ((p.reset start).stepN N).targetContact_ <
      p.contacts_.length := by omega
  have hb4 : ((p.reset start).stepN N).nextContact_ <
      p.contacts_.length := by omega
  have hb5 : min (((p.reset start).stepN N).nextContact_ + 1)
      (((p.reset start).stepN N).lastIndex) < p.contacts_.length := by
    rw [hlast]
    omega
  have idq : ∀ i, i < p.contacts_.length →
      ((((p.reset start).stepN N)).contactAt i).id = i := by
    intro i hi
    unfold FootstepPlan.contactAt
    rw [hc]
    exact hwf.2 i hi
  have e1 : ((p.reset start).stepN N).prevContact.id =
      ((p.reset start).stepN N).prevContact_ := idq _ hb1
  have e2 : ((p.reset start).stepN N).supportContact.id =
      ((p.reset start).stepN N).supportContact_ := idq _ hb2
  have e3 : ((p.reset start).stepN N).targetContact.id =
      ((p.reset start).stepN N).targetContact_ := idq _ hb3
  have e4 : ((p.reset start).stepN N).nextContact.id =
      ((p.reset start).stepN N).nextContact_ := idq _ hb4
  have f1 : ((p.reset start).stepN (N + 1)).prevContact.id =
      ((p.reset start).stepN N).supportContact_ := idq _ hb2
  have f2 : ((p.reset start).stepN (N + 1)).supportContact.id =
      ((p.reset start).stepN N).targetContact_ := idq _ hb3
  have f3 : ((p.reset start).stepN (N + 1)).targetContact.id =
      ((p.reset start).stepN N).nextContact_ := idq _ hb4
  have f4 : ((p.reset start).stepN (N + 1)).nextContact.id =
      min (((p.reset start).stepN N).nextContact_ + 1)
        (((p.reset start).stepN N).lastIndex) := idq _ hb5
  have elast : (p.contactAt p.lastIndex).id = p.lastIndex :=
    hwf.2 _ hlastlt
  refine ⟨?_, ?_, ⟨hb1, hb2, hb3, hb4⟩, ?_⟩
  · rw [e1, e2, e3, e4, f1, f2, f3, f4, hlast]
    omega
  · rw [e1, e2, e3, e4, elast]
    omega
  · intro hroles
    simp only [FootstepPlan.roles, FootstepPlan.goToNextFootstep,
      Prod.mk.injEq] at hroles ⊢
    obtain ⟨g1, g2, g3, g4⟩ := hroles
    refine ⟨g2.trans g1.symm, g3.trans g2.symm, g4.trans g3.symm, ?_⟩
    rw [hlast, g4]
    omega

/-- Concrete check of C7_cursor_monotonicity on the four-contact plan after
one transition. -/
theorem C7_cursor_monotonicity_check :
    ((plan4.reset 0).stepN 1).supportContact.id ≤
      ((plan4.reset 0).stepN 2).supportContact.id ∧
    ((plan4.reset 0).stepN 1).nextContact.id ≤
      (plan4.contactAt plan4.lastIndex).id := by
  have h := C7_cursor_monotonicity plan4 0 1 (by decide) (by decide)
  exact ⟨h.1.2.1, h.2.1.2.2.2⟩

/-- Claim C8: saving a plan and loading the result yields a plan with the
same contact sequence and the same timing parameters, with the role
pointers reset to the plan start; in particular save(load(save(plan)))
equals save(plan). -/
theorem C8_save_load_roundtrip (p : FootstepPlan) :
    (FootstepPlan.load p.save).save = p.save ∧
    (FootstepPlan.load p.save).contacts_ = p.contacts_ ∧
    (FootstepPlan.load p.save).name = p.name ∧
    (FootstepPlan.load p.save).takeoffOffset_ = p.takeoffOffset_ ∧
    (FootstepPlan.load p.save).comHeight_ = p.comHeight_ ∧
    (FootstepPlan.load p.save).doubleSupportDuration_ =
      p.doubleSupportDuration_ ∧
    (FootstepPlan.load p.save).finalDSPDuration_ = p.finalDSPDuration_ ∧
    (FootstepPlan.load p.save).initDSPDuration_ = p.initDSPDuration_ ∧
    (FootstepPlan.load p.save).landingPitch_ = p.landingPitch_ ∧
    (FootstepPlan.load p.save).landingRatio_ = p.landingRatio_ ∧
    (FootstepPlan.load p.save).singleSupportDuration_ =
      p.singleSupportDuration_ ∧
    (FootstepPlan.load p.save).swingHeight_ = p.swingHeight_ ∧
    (FootstepPlan.load p.save).takeoffPitch_ = p.takeoffPitch_ ∧
    (FootstepPlan.load p.save).takeoffRatio_ = p.takeoffRatio_ ∧
    (FootstepPlan.load p.save).roles = (p.reset 0).roles := by
  exact ⟨rfl, rfl, rfl, rfl, rfl, rfl, rfl, rfl, rfl, rfl, rfl, rfl, rfl,
    rfl, rfl⟩

end CaptureWalking
